import Mathlib

/-!
Shallow embedding of the taxifare-website Streamlit app (`src/app.py`).

The app keeps its session state in four `st.session_state` keys
(`pickup_address`, `dropoff_address`, `pickup_coords`, `dropoff_coords`);
the inline event handlers (map click at lines 431-460, the
"Clear coordinates" button at lines 464-468, the "Estimate fare" button at
lines 286-370) and the helper `geocode_address` (lines 184-194) are embedded
below as pure Lean functions.  External effects (the Nominatim geocoding
provider, the reverse-geocode lookup, the secrets store) are passed in as
explicit oracle arguments; coordinates are modelled as pairs of rationals.
-/

namespace TaxiFare

/-- A geographic coordinate, stored by the app as a Python tuple `(lat, lon)`. -/
abbrev Coord := ℚ × ℚ

/-- The session state of the app: the four `st.session_state` keys initialised
at `app.py` lines 210-217 (`pickup_address`, `dropoff_address` as strings,
`pickup_coords`, `dropoff_coords` as `tuple | None`). -/
structure TripState where
  pickup_address : String
  dropoff_address : String
  pickup_coords : Option Coord
  dropoff_coords : Option Coord
  deriving Repr, DecidableEq

/-- The initial session state (`app.py` lines 210-217): both addresses are the
empty string, both coordinates are `None`. -/
def initState : TripState :=
  { pickup_address := "", dropoff_address := "", pickup_coords := none, dropoff_coords := none }

/-- Assignment `if address: field = address` — overwrite `old` with the reverse-geocoded
address exactly when that address is truthy (present and nonempty). -/
def overwriteIfTruthy (address : Option String) (old : String) : String :=
  match address with
  | none => old
  | some a => if a == "" then old else a

/-- The map-click handler, `app.py` lines 431-460, for a click that carries a
valid location `(lat, lon)` (both non-`None`).  `address` is the result of
`reverse_geocode(lat, lon)` (`None` on failure), passed in as a value since
the lookup is an external call.
1. if `pickup_coords` is `None`, set it to the click and, if `address` is
   truthy, overwrite `pickup_address`;
2. else if `dropoff_coords` is `None`, set it and, if `address` is truthy,
   overwrite `dropoff_address`;
3. else (both set) restart: set `pickup_coords` to the click, clear
   `dropoff_coords` to `None` and `dropoff_address` to `""`, and if `address`
   is truthy overwrite `pickup_address`. -/
def handle_last_clicked (s : TripState) (lat lon : ℚ) (address : Option String) : TripState :=
  match s.pickup_coords with
  | none =>
      { s with pickup_coords := some (lat, lon),
               pickup_address := overwriteIfTruthy address s.pickup_address }
  | some _ =>
      match s.dropoff_coords with
      | none =>
          { s with dropoff_coords := some (lat, lon),
                   dropoff_address := overwriteIfTruthy address s.dropoff_address }
      | some _ =>
          { s with pickup_coords := some (lat, lon),
                   dropoff_coords := none,
                   dropoff_address := "",
                   pickup_address := overwriteIfTruthy address s.pickup_address }

/-- The "Clear coordinates" button handler, `app.py` lines 464-468: both
coordinates are set to `None` and both addresses to `""`. -/
def clear_coordinates (_s : TripState) : TripState :=
  { pickup_coords := none, dropoff_coords := none,
    pickup_address := "", dropoff_address := "" }

/-- One map click: the location plus the outcome of the external
reverse-geocode lookup for that location. -/
structure Click where
  lat : ℚ
  lon : ℚ
  address : Option String

/-- Process a sequence of map clicks, left to right, with no other actions
interleaved. -/
def runClicks (s : TripState) (cs : List Click) : TripState :=
  cs.foldl (fun t c => handle_last_clicked t c.lat c.lon c.address) s

/-- Outcome of one call to the external Nominatim provider inside
`geocode_address`: a location, no match (`geolocator.geocode` returned a
falsy result), or a raised `GeocoderServiceError` (timeout or provider
error). -/
inductive ProviderResult where
  | ok (lat lon : ℚ)
  | noMatch
  | failure
  deriving Repr, DecidableEq

/-- Model of Python's `str.strip()` with no argument: drop leading and
trailing whitespace characters. -/
def pyStrip (s : String) : String :=
  String.mk (((s.toList.dropWhile Char.isWhitespace).reverse.dropWhile Char.isWhitespace).reverse)

/-- Function `geocode_address` (`app.py` lines 184-194): returns `None` without calling
the provider when the address is falsy (empty) or whitespace-only; otherwise
calls the provider once, returning `(loc.latitude, loc.longitude)` on a truthy
result and `None` when the provider finds nothing or raises
`GeocoderServiceError`. -/
def geocode_address (provider : String → ProviderResult) (address : String) : Option Coord :=
  if address == "" || pyStrip address == "" then none
  else
    match provider address with
    | .ok lat lon => some (lat, lon)
    | .noMatch => none
    | .failure => none

/-- Number of calls `geocode_address` makes to the external provider for a
given input: `0` on the empty/whitespace early return, `1` otherwise. -/
def geocode_provider_calls (address : String) : ℕ :=
  if address == "" || pyStrip address == "" then 0 else 1

/-! ### JSON values and the fare-response parsing of the Estimate handler -/

/-- A decoded JSON value, as returned by `resp.json()`. -/
inductive Json where
  | null
  | bool (b : Bool)
  | num (q : ℚ)
  | str (s : String)
  | arr (xs : List Json)
  | obj (kvs : List (String × Json))

/-- Python truthiness of a value that is either `None` (the `Option.none`
case, e.g. a missing dictionary key) or a decoded JSON value. -/
def truthy : Option Json → Bool
  | none => false
  | some .null => false
  | some (.bool b) => b
  | some (.num q) => q != 0
  | some (.str s) => s != ""
  | some (.arr xs) => !xs.isEmpty
  | some (.obj kvs) => !kvs.isEmpty

/-- Python's `x or y`: evaluates to `x` if `x` is truthy, else to `y`
(even when `y` is itself falsy, e.g. `None or 0` is `0`). -/
def pyOr (x y : Option Json) : Option Json :=
  if truthy x then x else y

/-- Lookup `dict.get(k)` on a decoded JSON object: the value bound to `k`, or `None`
if the key is absent.  The association list lists insertions in order, so the
last binding of a duplicated key wins, as in a Python dict. -/
def dictGet (kvs : List (String × Json)) (k : String) : Option Json :=
  match kvs.reverse.find? (fun kv => kv.1 == k) with
  | some kv => some kv.2
  | none => none

/-- Indexing `x[0]` on a decoded JSON value, as used in `data["predictions"][0]`:
the first element of a list, the first character of a string, and a raised
error (modelled as `none`, caught by the surrounding `except`) otherwise. -/
def pyIndex0 : Json → Option Json
  | .arr (x :: _) => some x
  | .str s =>
      match s.toList with
      | c :: _ => some (.str (String.mk [c]))
      | [] => none
  | _ => none

/-- Digits to a natural number, most significant first. -/
def digitsToNat (cs : List Char) : ℕ :=
  cs.foldl (fun a c => a * 10 + (c.toNat - 48)) 0

/-- Unsigned part of a Python decimal float literal: digits with an optional
single decimal point, at least one digit overall. -/
def parseUnsignedDecimal (cs : List Char) : Option ℚ :=
  let intPart := cs.takeWhile Char.isDigit
  let rest := cs.dropWhile Char.isDigit
  match rest with
  | [] => if intPart.isEmpty then none else some (digitsToNat intPart)
  | c :: frac =>
      if c.toNat == 46 && frac.all Char.isDigit && !(intPart.isEmpty && frac.isEmpty) then
        some ((digitsToNat intPart : ℚ) + (digitsToNat frac : ℚ) / (10 ^ frac.length))
      else none

/-- Model of Python's `float(string)` restricted to plain decimal literals:
surrounding whitespace is stripped, then an optional sign precedes digits with
an optional decimal point; anything else raises (here: `none`).  (Exponent,
`inf` and `nan` forms are not needed by any response the app handles.) -/
def pyFloatOfString (s : String) : Option ℚ :=
  match (pyStrip s).toList with
  | [] => none
  | c :: rest =>
      if c.toNat == 45 then (parseUnsignedDecimal rest).map (fun q => -q)
      else if c.toNat == 43 then parseUnsignedDecimal rest
      else parseUnsignedDecimal (c :: rest)

/-- Model of Python's `float(x)` on a decoded JSON value: numbers convert to
themselves, booleans to 0/1, numeric strings parse, everything else raises
(`none`, caught by the surrounding `except`). -/
def pyFloat : Json → Option ℚ
  | .num q => some q
  | .bool b => some (if b then 1 else 0)
  | .str s => pyFloatOfString s
  | _ => none

/-- The response-parsing block of the Estimate handler, `app.py` lines
338-356.  `data` is `resp.json() if resp.content else None`; the result is
the final value of the `prediction` variable (as a Python value: `none` means
`prediction is None`, i.e. the "Couldn't parse prediction" error at line 358).
* `data is None` (empty body): `float(resp.text.strip())` on the empty text
  raises, so `prediction` stays `None`;
* a number (or bool, since `isinstance(True, int)` holds): `float(data)`;
* a dict: `data.get("prediction") or data.get("fare") or data.get("pred")`,
  then if that is `None` and `"predictions" in data`, try
  `float(data["predictions"][0])`;
* any other shape falls through with `prediction = None`. -/
def parsePrediction (data : Option Json) : Option Json :=
  match data with
  | none => none
  | some (.num q) => some (.num q)
  | some (.bool b) => some (.num (if b then 1 else 0))
  | some (.obj kvs) =>
      let p := pyOr (pyOr (dictGet kvs "prediction") (dictGet kvs "fare")) (dictGet kvs "pred")
      if p.isNone ∧ (dictGet kvs "predictions").isSome then
        match (dictGet kvs "predictions").bind pyIndex0 with
        | some v => (pyFloat v).map Json.num
        | none => none
      else p
  | some _ => none

/-! ### The Estimate-fare button handler -/

/-- A value placed in the request payload dict: a string, a Python float, or a
Python int. -/
inductive PyVal where
  | s (v : String)
  | f (v : ℚ)
  | i (v : ℤ)
  deriving Repr, DecidableEq

/-- The request payload dict built at `app.py` lines 304-311, with its exact
keys in source order: the coordinate tuples are unpacked as `(lat, lon)` and
re-emitted as `float` longitude/latitude fields, plus the formatted pickup
datetime string and the integer passenger count. -/
def buildPayload (pickup dropoff : Coord) (passengers : ℤ) (pickup_datetime : String) :
    List (String × PyVal) :=
  [("pickup_datetime", .s pickup_datetime),
   ("pickup_longitude", .f pickup.2),
   ("pickup_latitude", .f pickup.1),
   ("dropoff_longitude", .f dropoff.2),
   ("dropoff_latitude", .f dropoff.1),
   ("passenger_count", .i passengers)]

/-- A naive datetime as produced by `datetime.combine(pickup_date, pickup_time)`. -/
structure PyDateTime where
  year : ℕ
  month : ℕ
  day : ℕ
  hour : ℕ
  minute : ℕ
  second : ℕ
  deriving Repr, DecidableEq

/-- Zero-pad a natural number to two digits. -/
def pad2 (n : ℕ) : String :=
  if n < 10 then "0" ++ toString n else toString n

/-- Zero-pad a natural number to four digits (Python's `%Y`). -/
def pad4 (n : ℕ) : String :=
  if n < 10 then "000" ++ toString n
  else if n < 100 then "00" ++ toString n
  else if n < 1000 then "0" ++ toString n
  else toString n

/-- Formatting `strftime("%Y-%m-%d %H:%M:%S")` on a combined datetime (`app.py`
line 301). -/
def strftime_ymd_hms (dt : PyDateTime) : String :=
  pad4 dt.year ++ "-" ++ pad2 dt.month ++ "-" ++ pad2 dt.day ++ " " ++
    pad2 dt.hour ++ ":" ++ pad2 dt.minute ++ ":" ++ pad2 dt.second

/-- Observable outcome of one press of the "Estimate fare" button:
a validation error (line 294, no HTTP request); a configuration error
(lines 314-318, the `SERVICE_URL` secrets lookup raised, error shown, no
HTTP request); a silent skip (the URL was read but is falsy — the empty
string — so the `if service_url:` guard at line 320 fails with no message
and no request); or a single `requests.get` to the predict endpoint carrying
the payload. -/
inductive EstimateOutcome where
  | validationError
  | configError
  | emptyUrlSkip
  | fareRequest (payload : List (String × PyVal))
  deriving Repr, DecidableEq

/-- Number of HTTP requests to the fare endpoint an outcome performs. -/
def fareCalls : EstimateOutcome → ℕ
  | .fareRequest _ => 1
  | _ => 0

/-- The "Estimate fare" button handler, `app.py` lines 286-329.  `provider`
backs `geocode_address`; `service_url` is `st.secrets["API_related"]["SERVICE_URL"]`
(`none` when the lookup raises).  Missing coordinates are first filled by
assigning `geocode_address` of the corresponding typed address back into the
session state (lines 288-291, the assignment happens even when geocoding
returns `None`); if either coordinate is still `None` the handler reports the
validation error of line 294 and stops; otherwise it builds the payload and,
provided the service URL passed Python's truthiness test `if service_url:`
at line 320 (present and nonempty), performs exactly one `requests.get`
(line 329). -/
def estimate_fare (provider : String → ProviderResult) (service_url : Option String)
    (passengers : ℤ) (dt : PyDateTime) (s : TripState) : TripState × EstimateOutcome :=
  let s1 := if s.pickup_coords.isNone
    then { s with pickup_coords := geocode_address provider s.pickup_address } else s
  let s2 := if s1.dropoff_coords.isNone
    then { s1 with dropoff_coords := geocode_address provider s1.dropoff_address } else s1
  match s2.pickup_coords, s2.dropoff_coords with
  | some pc, some dc =>
      match service_url with
      | none => (s2, .configError)
      | some u =>
          if u == "" then (s2, .emptyUrlSkip)
          else (s2, .fareRequest (buildPayload pc dc passengers (strftime_ymd_hms dt)))
  | _, _ => (s2, .validationError)

end TaxiFare

namespace TaxiFare

/-! ### Claim theorems -/

/-- C6: the "Clear coordinates" action, applied in any state, sets both
coordinates to absent and both address strings to the empty string: it always
yields the EMPTY state (the app's initial session state) regardless of the
prior state. -/
theorem clear_always_yields_empty (s : TripState) :
    clear_coordinates s = initState ∧
    (clear_coordinates s).pickup_coords = none ∧
    (clear_coordinates s).dropoff_coords = none ∧
    (clear_coordinates s).pickup_address = "" ∧
    (clear_coordinates s).dropoff_address = "" := by
  refine ⟨rfl, rfl, rfl, rfl, rfl⟩

/-- C10: immediately after any map click carrying a valid location is
processed, `pickup_coords` is present, whatever the prior state: the click
handler never assigns `dropoff_coords` while leaving `pickup_coords` absent,
so the state reached by a click is never EMPTY, and a `dropoff_coords` set by
clicking always comes with a present `pickup_coords`. -/
theorem click_always_sets_pickup (s : TripState) (lat lon : ℚ) (address : Option String) :
    (handle_last_clicked s lat lon address).pickup_coords.isSome = true := by
  unfold handle_last_clicked
  rcases s.pickup_coords with _ | pc
  · simp
  · rcases s.dropoff_coords with _ | dc <;> simp

/-- C2: fare-response parsing of a successful response body: the bare numeric
body `12.50` yields the fare 12.50; `{"fare": 9.3}` yields 9.3;
`{"predictions": [14.2, 0]}` yields 14.2 (the first list element); `{}`
yields no fare (the parse error is reported); and in general a (nonzero) fare
value under any one of the keys `prediction`, `fare` or `pred` is accepted. -/
theorem parse_fare_response_spec (q : ℚ) (hq : q ≠ 0) :
    parsePrediction (some (.num 12.5)) = some (.num 12.5) ∧
    parsePrediction (some (.obj [("fare", .num 9.3)])) = some (.num 9.3) ∧
    parsePrediction (some (.obj [("predictions", .arr [.num 14.2, .num 0])])) = some (.num 14.2) ∧
    parsePrediction (some (.obj [])) = none ∧
    parsePrediction (some (.obj [("prediction", .num q)])) = some (.num q) ∧
    parsePrediction (some (.obj [("fare", .num q)])) = some (.num q) ∧
    parsePrediction (some (.obj [("pred", .num q)])) = some (.num q) := by
  refine ⟨rfl, ?_, ?_, ?_, ?_, ?_, ?_⟩
  all_goals simp [parsePrediction, dictGet, pyOr, truthy, pyIndex0, pyFloat, hq]
  all_goals norm_num

/-- C2 witness: the theorem instantiated at the concrete fare 9.3. -/
theorem parse_fare_response_spec_witness :
    (9.3 : ℚ) ≠ 0 ∧
    (parsePrediction (some (.num 12.5)) = some (.num 12.5) ∧
     parsePrediction (some (.obj [("fare", .num 9.3)])) = some (.num 9.3) ∧
     parsePrediction (some (.obj [("predictions", .arr [.num 14.2, .num 0])])) = some (.num 14.2) ∧
     parsePrediction (some (.obj [])) = none ∧
     parsePrediction (some (.obj [("prediction", .num 9.3)])) = some (.num 9.3) ∧
     parsePrediction (some (.obj [("fare", .num 9.3)])) = some (.num 9.3) ∧
     parsePrediction (some (.obj [("pred", .num 9.3)])) = some (.num 9.3)) :=
  ⟨by norm_num, parse_fare_response_spec 9.3 (by norm_num)⟩

/-- C9 counterexample: for the body `{"pred": 0}` the parser does NOT report
a parse error — Python's `or` returns its last operand even when that operand
is falsy, so the `0` bound to the final chained key `pred` is returned and the
app reports an estimated fare of 0. -/
theorem pred_zero_is_accepted :
    parsePrediction (some (.obj [("pred", .num 0)])) = some (.num 0) := by
  simp [parsePrediction, dictGet, pyOr, truthy]

/-- C9 (amended): a fare of 0 under `prediction` or `fare` (with no
`predictions` list and the later chain keys absent) is treated as absent by
the falsy-chaining `or`, so no fare is produced and the parse error is
reported; but a fare of 0 under the final chained key `pred` is returned
as-is, because `or` evaluates to its last operand even when it is falsy. -/
theorem or_chain_zero_amended :
    parsePrediction (some (.obj [("prediction", .num 0)])) = none ∧
    parsePrediction (some (.obj [("fare", .num 0)])) = none ∧
    parsePrediction (some (.obj [("pred", .num 0)])) = some (.num 0) := by
  refine ⟨?_, ?_, ?_⟩ <;> simp [parsePrediction, dictGet, pyOr, truthy]

/-- C8: `geocode_address` applied to the empty string or to a
whitespace-only string returns absent without invoking the provider at all
(zero provider calls); and for any input, it returns absent — rather than
raising — when the provider times out or errors (`GeocoderServiceError`). -/
theorem geocode_softfail_spec (provider : String → ProviderResult) (address : String)
    (hfail : provider address = .failure) :
    geocode_address provider "" = none ∧
    geocode_address provider "   " = none ∧
    geocode_provider_calls "" = 0 ∧
    geocode_provider_calls "   " = 0 ∧
    geocode_address provider address = none := by
  refine ⟨rfl, rfl, rfl, rfl, ?_⟩
  unfold geocode_address
  split
  · rfl
  · rw [hfail]

/-- C8 witness: a provider that always raises, queried at the address `"x"`. -/
theorem geocode_softfail_spec_witness :
    ((fun _ : String => ProviderResult.failure) "x" = ProviderResult.failure) ∧
    (geocode_address (fun _ => ProviderResult.failure) "" = none ∧
     geocode_address (fun _ => ProviderResult.failure) "   " = none ∧
     geocode_provider_calls "" = 0 ∧
     geocode_provider_calls "   " = 0 ∧
     geocode_address (fun _ => ProviderResult.failure) "x" = none) :=
  ⟨rfl, geocode_softfail_spec (fun _ => ProviderResult.failure) "x" rfl⟩

end TaxiFare

namespace TaxiFare

/-- C1: the map-click handler implements the three-phase cycle over the
coordinate pair.  For every click carrying a valid location: if
`pickup_coords` is absent the click sets it to the click location (EMPTY to
PICKUP_SET, dropoff untouched); else if `dropoff_coords` is absent the click
sets it (PICKUP_SET to BOTH_SET); else the click overwrites `pickup_coords`
with the new location and clears `dropoff_coords` to absent and
`dropoff_address` to empty (BOTH_SET to PICKUP_SET).  In each case the
corresponding address string is overwritten only when reverse geocoding of
the click succeeds (with a nonempty address). -/
theorem click_three_phase_cycle (s : TripState) (lat lon : ℚ) (address : Option String) :
    (s.pickup_coords = none →
      (handle_last_clicked s lat lon address).pickup_coords = some (lat, lon) ∧
      (handle_last_clicked s lat lon address).dropoff_coords = s.dropoff_coords ∧
      (handle_last_clicked s lat lon address).dropoff_address = s.dropoff_address ∧
      (address = none →
        (handle_last_clicked s lat lon address).pickup_address = s.pickup_address) ∧
      (∀ a, address = some a → a ≠ "" →
        (handle_last_clicked s lat lon address).pickup_address = a)) ∧
    (s.pickup_coords ≠ none → s.dropoff_coords = none →
      (handle_last_clicked s lat lon address).dropoff_coords = some (lat, lon) ∧
      (handle_last_clicked s lat lon address).pickup_coords = s.pickup_coords ∧
      (handle_last_clicked s lat lon address).pickup_address = s.pickup_address ∧
      (address = none →
        (handle_last_clicked s lat lon address).dropoff_address = s.dropoff_address) ∧
      (∀ a, address = some a → a ≠ "" →
        (handle_last_clicked s lat lon address).dropoff_address = a)) ∧
    (s.pickup_coords ≠ none → s.dropoff_coords ≠ none →
      (handle_last_clicked s lat lon address).pickup_coords = some (lat, lon) ∧
      (handle_last_clicked s lat lon address).dropoff_coords = none ∧
      (handle_last_clicked s lat lon address).dropoff_address = "" ∧
      (address = none →
        (handle_last_clicked s lat lon address).pickup_address = s.pickup_address) ∧
      (∀ a, address = some a → a ≠ "" →
        (handle_last_clicked s lat lon address).pickup_address = a)) := by
  unfold handle_last_clicked
  rcases hp : s.pickup_coords with _ | pc
  · refine ⟨fun _ => ⟨rfl, rfl, rfl, ?_, ?_⟩, fun h => absurd rfl h, fun h => absurd rfl h⟩
    · rintro rfl; rfl
    · rintro a rfl ha; simp [overwriteIfTruthy, ha]
  · rcases hd : s.dropoff_coords with _ | dc
    · refine ⟨fun h => absurd h (by simp), fun _ _ => ⟨rfl, rfl, rfl, ?_, ?_⟩,
        fun _ h => absurd rfl h⟩
      · rintro rfl; rfl
      · rintro a rfl ha; simp [overwriteIfTruthy, ha]
    · refine ⟨fun h => absurd h (by simp), fun _ h => absurd h (by simp),
        fun _ _ => ⟨rfl, rfl, rfl, ?_, ?_⟩⟩
      · rintro rfl; rfl
      · rintro a rfl ha; simp [overwriteIfTruthy, ha]

/-- C1 witness: from the empty state, a click at (1, 2) whose reverse
geocode yields "addr" sets the pickup coordinate and address. -/
theorem click_three_phase_cycle_witness :
    initState.pickup_coords = none ∧
    (handle_last_clicked initState 1 2 (some "addr")).pickup_coords = some (1, 2) ∧
    (handle_last_clicked initState 1 2 (some "addr")).pickup_address = "addr" := by
  have h := (click_three_phase_cycle initState 1 2 (some "addr")).1 rfl
  exact ⟨rfl, h.1, h.2.2.2.2 "addr" rfl (by decide)⟩

/-- C7: when reverse geocoding of a map click fails (returns absent), the
click performs exactly the same coordinate transition as on success, and the
address string corresponding to the coordinate being set is left unchanged:
only the address-string overwrite is skipped. -/
theorem reverse_geocode_failure_frame (s : TripState) (lat lon : ℚ) (a : String) :
    (handle_last_clicked s lat lon none).pickup_coords
        = (handle_last_clicked s lat lon (some a)).pickup_coords ∧
    (handle_last_clicked s lat lon none).dropoff_coords
        = (handle_last_clicked s lat lon (some a)).dropoff_coords ∧
    (s.pickup_coords = none →
      (handle_last_clicked s lat lon none).pickup_address = s.pickup_address ∧
      (handle_last_clicked s lat lon none).dropoff_address = s.dropoff_address) ∧
    (s.pickup_coords ≠ none → s.dropoff_coords = none →
      (handle_last_clicked s lat lon none).dropoff_address = s.dropoff_address ∧
      (handle_last_clicked s lat lon none).pickup_address = s.pickup_address) ∧
    (s.pickup_coords ≠ none → s.dropoff_coords ≠ none →
      (handle_last_clicked s lat lon none).pickup_address = s.pickup_address) := by
  unfold handle_last_clicked
  rcases hp : s.pickup_coords with _ | pc
  · exact ⟨rfl, rfl, fun _ => ⟨rfl, rfl⟩, fun h => absurd rfl h, fun h => absurd rfl h⟩
  · rcases hd : s.dropoff_coords with _ | dc
    · exact ⟨rfl, rfl, fun h => absurd h (by simp), fun _ _ => ⟨rfl, rfl⟩,
        fun _ h => absurd rfl h⟩
    · exact ⟨rfl, rfl, fun h => absurd h (by simp), fun _ h => absurd h (by simp),
        fun _ _ => rfl⟩

/-- C7 witness: from a state with only the pickup set, a failed reverse
geocode still sets the dropoff coordinate and leaves the dropoff address
unchanged. -/
theorem reverse_geocode_failure_frame_witness :
    ({ pickup_address := "p", dropoff_address := "d",
       pickup_coords := some (3, 4), dropoff_coords := none } : TripState).pickup_coords ≠ none ∧
    (handle_last_clicked
        { pickup_address := "p", dropoff_address := "d",
          pickup_coords := some (3, 4), dropoff_coords := none } 1 2 none).dropoff_address = "d" ∧
    (handle_last_clicked
        { pickup_address := "p", dropoff_address := "d",
          pickup_coords := some (3, 4), dropoff_coords := none } 1 2 none).dropoff_coords
      = (handle_last_clicked
        { pickup_address := "p", dropoff_address := "d",
          pickup_coords := some (3, 4), dropoff_coords := none } 1 2 (some "x")).dropoff_coords := by
  have h := reverse_geocode_failure_frame
    { pickup_address := "p", dropoff_address := "d",
      pickup_coords := some (3, 4), dropoff_coords := none } 1 2 "x"
  exact ⟨by simp, (h.2.2.2.1 (by simp) rfl).1, h.2.1⟩

end TaxiFare

namespace TaxiFare

/-- Phase invariant of the click cycle: after `n` clicks from the EMPTY
state, the pickup coordinate is present iff at least one click happened, and
the dropoff coordinate is present iff the click count is positive and even. -/
def clickPhaseInv (s : TripState) (n : ℕ) : Prop :=
  (s.pickup_coords.isSome = true ↔ n ≠ 0) ∧
  (s.dropoff_coords.isSome = true ↔ (n ≠ 0 ∧ n % 2 = 0))

theorem clickPhaseInv_step (s : TripState) (n : ℕ) (c : Click)
    (h : clickPhaseInv s n) :
    clickPhaseInv (handle_last_clicked s c.lat c.lon c.address) (n + 1) := by
  obtain ⟨h1, h2⟩ := h
  unfold handle_last_clicked
  rcases hp : s.pickup_coords with _ | pc
  · have hn : n = 0 := by
      by_contra hn
      exact absurd (h1.mpr hn) (by simp [hp])
    subst hn
    have hd : s.dropoff_coords = none := by
      rcases hdc : s.dropoff_coords with _ | dc
      · rfl
      · exact absurd (h2.mp (by simp [hdc])).1 (by simp)
    constructor
    · simp
    · simp [hd]
  · rcases hd : s.dropoff_coords with _ | dc
    · have hn : n ≠ 0 := h1.mp (by simp [hp])
      have hodd : n % 2 = 1 := by
        rcases Nat.mod_two_eq_zero_or_one n with h0 | h1'
        · exact absurd (h2.mpr ⟨hn, h0⟩) (by simp [hd])
        · exact h1'
      constructor
      · simp
      · simp
        omega
    · have hn : n ≠ 0 := h1.mp (by simp [hp])
      have heven : n % 2 = 0 := (h2.mp (by simp [hd])).2
      constructor
      · simp
      · simp
        omega

theorem clickPhaseInv_run (cs : List Click) : ∀ (s : TripState) (n : ℕ),
    clickPhaseInv s n → clickPhaseInv (runClicks s cs) (n + cs.length) := by
  induction cs with
  | nil => intro s n h; simpa [runClicks] using h
  | cons c cs ih =>
      intro s n h
      have h1 := clickPhaseInv_step s n c h
      have h2 := ih (handle_last_clicked s c.lat c.lon c.address) (n + 1) h1
      simp only [runClicks, List.foldl_cons] at h2 ⊢
      have : n + 1 + cs.length = n + (c :: cs).length := by simp; omega
      rwa [this] at h2

/-- C4: for every sequence of map clicks starting from the EMPTY state (no
clear or locate actions interleaved), the N-th click (1-indexed) sets the
pickup coordinate when N is odd and the dropoff coordinate when N is even;
and every odd click beyond the first pair (N odd, N at least 3) clears the
dropoff coordinate and dropoff address. -/
theorem click_parity_spec (s0 : TripState) (cs : List Click) (k : ℕ) (hk : k < cs.length)
    (hp0 : s0.pickup_coords = none) (hd0 : s0.dropoff_coords = none) :
    ((k + 1) % 2 = 1 →
      (runClicks s0 (cs.take (k + 1))).pickup_coords = some (cs[k].lat, cs[k].lon)) ∧
    ((k + 1) % 2 = 0 →
      (runClicks s0 (cs.take (k + 1))).dropoff_coords = some (cs[k].lat, cs[k].lon)) ∧
    (3 ≤ k + 1 → (k + 1) % 2 = 1 →
      (runClicks s0 (cs.take (k + 1))).dropoff_coords = none ∧
      (runClicks s0 (cs.take (k + 1))).dropoff_address = "") := by
  have h0 : clickPhaseInv s0 0 := by simp [clickPhaseInv, hp0, hd0]
  have htklen : (cs.take k).length = k := by
    simp [List.length_take]
    omega
  have hinv : clickPhaseInv (runClicks s0 (cs.take k)) k := by
    have := clickPhaseInv_run (cs.take k) s0 0 h0
    rwa [htklen, Nat.zero_add] at this
  have hsplit : cs.take (k + 1) = cs.take k ++ [cs[k]] := by
    rw [List.take_succ]
    simp [List.getElem?_eq_getElem hk]
  have hrun : runClicks s0 (cs.take (k + 1))
      = handle_last_clicked (runClicks s0 (cs.take k)) cs[k].lat cs[k].lon cs[k].address := by
    rw [hsplit]
    simp only [runClicks, List.foldl_append, List.foldl_cons, List.foldl_nil]
  obtain ⟨i1, i2⟩ := hinv
  rw [hrun]
  rcases htp : (runClicks s0 (cs.take k)).pickup_coords with _ | pc
  · have hk0 : k = 0 := by
      by_contra h
      exact absurd (i1.mpr h) (by simp [htp])
    subst hk0
    refine ⟨fun _ => ?_, fun h => by omega, fun h => by omega⟩
    unfold handle_last_clicked
    rw [htp]
  · have hkpos : k ≠ 0 := i1.mp (by simp [htp])
    rcases htd : (runClicks s0 (cs.take k)).dropoff_coords with _ | dc
    · have hkodd : k % 2 = 1 := by
        rcases Nat.mod_two_eq_zero_or_one k with h0' | h1'
        · exact absurd (i2.mpr ⟨hkpos, h0'⟩) (by simp [htd])
        · exact h1'
      refine ⟨fun h => by omega, fun _ => ?_, fun _ h => by omega⟩
      unfold handle_last_clicked
      rw [htp, htd]
    · have hkeven : k % 2 = 0 := (i2.mp (by simp [htd])).2
      have hk2 : 2 ≤ k := by omega
      refine ⟨fun _ => ?_, fun h => by omega, fun _ _ => ⟨?_, ?_⟩⟩ <;>
        · unfold handle_last_clicked
          rw [htp, htd]

/-- C4 witness: three clicks from the EMPTY state; the third click (odd,
beyond the first pair) sets the pickup to its location and clears the
dropoff coordinate and address. -/
theorem click_parity_spec_witness :
    (2 < ([⟨1, 2, none⟩, ⟨3, 4, none⟩, ⟨5, 6, none⟩] : List Click).length) ∧
    initState.pickup_coords = none ∧
    (runClicks initState (([⟨1, 2, none⟩, ⟨3, 4, none⟩, ⟨5, 6, none⟩] : List Click).take 3)).pickup_coords
      = some (5, 6) ∧
    (runClicks initState (([⟨1, 2, none⟩, ⟨3, 4, none⟩, ⟨5, 6, none⟩] : List Click).take 3)).dropoff_coords
      = none := by
  have h := click_parity_spec initState [⟨1, 2, none⟩, ⟨3, 4, none⟩, ⟨5, 6, none⟩] 2
    (by norm_num) rfl rfl
  refine ⟨by norm_num, rfl, ?_, ?_⟩
  · simpa using h.1 (by norm_num)
  · exact (h.2.2 (by norm_num) (by norm_num)).1

end TaxiFare

namespace TaxiFare

/-- C5: for pickup (40.7484, -73.9857), dropoff (40.6892, -74.0445),
passenger count 2 and the fixed pickup date-time 2024-01-15 14:30:05, the
fare request payload consists of exactly the fields `pickup_datetime`
formatted "YYYY-MM-DD HH:MM:SS", `pickup_longitude` -73.9857,
`pickup_latitude` 40.7484, `dropoff_longitude` -74.0445, `dropoff_latitude`
40.6892 as floats, and `passenger_count` 2 as an integer — and no others. -/
theorem payload_fields_spec :
    estimate_fare (fun _ => ProviderResult.failure) (some "http://svc") 2 ⟨2024, 1, 15, 14, 30, 5⟩
        { pickup_address := "A", dropoff_address := "B",
          pickup_coords := some (40.7484, -73.9857), dropoff_coords := some (40.6892, -74.0445) }
      = ({ pickup_address := "A", dropoff_address := "B",
           pickup_coords := some (40.7484, -73.9857), dropoff_coords := some (40.6892, -74.0445) },
         .fareRequest [("pickup_datetime", .s "2024-01-15 14:30:05"),
                       ("pickup_longitude", .f (-73.9857)),
                       ("pickup_latitude", .f 40.7484),
                       ("dropoff_longitude", .f (-74.0445)),
                       ("dropoff_latitude", .f 40.6892),
                       ("passenger_count", .i 2)]) := by
  rfl

/-- C3: on a fare-estimation request, a missing pickup (resp. dropoff)
coordinate is first filled by forward-geocoding the corresponding address
text; if after that attempt either coordinate is still absent, the handler
reports a validation error and makes no call to the fare endpoint; otherwise
exactly one fare request is made (given a service URL that passes the
`if service_url:` truthiness guard, i.e. configured and nonempty). -/
theorem estimate_validation_spec (provider : String → ProviderResult) (su : Option String)
    (passengers : ℤ) (dt : PyDateTime) (s : TripState) (u : String)
    (hsu : su = some u) (hu : u ≠ "") :
    ((estimate_fare provider su passengers dt s).1.pickup_coords
        = if s.pickup_coords.isNone then geocode_address provider s.pickup_address
          else s.pickup_coords) ∧
    ((estimate_fare provider su passengers dt s).1.dropoff_coords
        = if s.dropoff_coords.isNone then geocode_address provider s.dropoff_address
          else s.dropoff_coords) ∧
    ((estimate_fare provider su passengers dt s).1.pickup_coords = none ∨
     (estimate_fare provider su passengers dt s).1.dropoff_coords = none →
      (estimate_fare provider su passengers dt s).2 = EstimateOutcome.validationError ∧
      fareCalls (estimate_fare provider su passengers dt s).2 = 0) ∧
    ((estimate_fare provider su passengers dt s).1.pickup_coords ≠ none →
     (estimate_fare provider su passengers dt s).1.dropoff_coords ≠ none →
      fareCalls (estimate_fare provider su passengers dt s).2 = 1) := by
  subst hsu
  rcases hpc : s.pickup_coords with _ | pc
  · rcases hdc : s.dropoff_coords with _ | dc
    · rcases hga : geocode_address provider s.pickup_address with _ | gpc <;>
        rcases hgb : geocode_address provider s.dropoff_address with _ | gdc <;>
        simp [estimate_fare, hpc, hdc, hga, hgb, hu, fareCalls]
    · rcases hga : geocode_address provider s.pickup_address with _ | gpc <;>
        simp [estimate_fare, hpc, hdc, hga, hu, fareCalls]
  · rcases hdc : s.dropoff_coords with _ | dc
    · rcases hgb : geocode_address provider s.dropoff_address with _ | gdc <;>
        simp [estimate_fare, hpc, hdc, hgb, hu, fareCalls]
    · simp [estimate_fare, hpc, hdc, hu, fareCalls]

/-- C3 witness: the empty state with an always-failing provider and the
configured nonempty URL "u" yields a validation error and zero fare calls. -/
theorem estimate_validation_spec_witness :
    (some "u" : Option String) = some "u" ∧ ("u" : String) ≠ "" ∧
    (estimate_fare (fun _ => ProviderResult.failure) (some "u") 2 ⟨2024, 1, 15, 14, 30, 5⟩
        initState).1.pickup_coords = none ∧
    (estimate_fare (fun _ => ProviderResult.failure) (some "u") 2 ⟨2024, 1, 15, 14, 30, 5⟩
        initState).2 = EstimateOutcome.validationError ∧
    fareCalls (estimate_fare (fun _ => ProviderResult.failure) (some "u") 2
        ⟨2024, 1, 15, 14, 30, 5⟩ initState).2 = 0 := by
  have h := estimate_validation_spec (fun _ => ProviderResult.failure) (some "u") 2
    ⟨2024, 1, 15, 14, 30, 5⟩ initState "u" rfl (by decide)
  exact ⟨rfl, by decide, rfl, (h.2.2.1 (Or.inl rfl)).1, (h.2.2.1 (Or.inl rfl)).2⟩

end TaxiFare
